import Mathlib

/-!
Verification development for the XRP WPILib firmware core: a shallow
embedding of the WebSocket message dispatcher (`src/wpilibws.cpp`), the
driver-station heartbeat, and the main control-loop tick
(`src/main.cpp`), together with theorems about the safety-supervision
behaviour.

Embedding conventions:
* ArduinoJson documents are modelled structurally: a `JsonDoc` carries an
  optional `type` string, the `device` field already parsed to an integer
  (the source parses it with `atoi` at the top of each handler), and an
  optional `data` mapping from field-name strings to values.
* C++ `double` values are modelled as `Rat`; string-to-number parsing
  (`atof`) is absorbed into the `JVal.asNum` accessor.
* The peripheral-driver layer (`robot.cpp`) and the `Watchdog` class
  (`watchdog.cpp`) are part of the repository but not among the provided
  sources; they are modelled from the specification and are marked
  `Modelled from the spec:` in their doc comments.
* Handlers are split into a pure part that emits a list of driver calls
  (mirroring `wpilibws.cpp` line by line) and a driver layer that applies
  those calls to the system state.
-/

namespace XRP

/-- A JSON field value as used by the firmware: booleans (`<init`,
`>enabled`), integers (`<channel_a`, `<channel_b`), or numbers
(`<speed`, `<position`, parsed by `atof`; modelled as `Rat`). -/
inductive JVal where
  | vBool : Bool → JVal
  | vInt : Int → JVal
  | vNum : Rat → JVal
deriving DecidableEq

/-- ArduinoJson `as<bool>` conversion: booleans pass through, numbers are
true iff nonzero. -/
def JVal.asBool : JVal → Bool
  | .vBool b => b
  | .vInt n => n ≠ 0
  | .vNum q => q ≠ 0

/-- ArduinoJson integer conversion (`chA = data["<channel_a"]`). The
handlers only ever read integer-valued fields this way. -/
def JVal.asInt : JVal → Int
  | .vBool b => if b then 1 else 0
  | .vInt n => n
  | .vNum q => q.floor

/-- Numeric conversion used for the PWM fields: the source reads the field
`as<std::string>()` and applies `atof`; a boolean-valued field would
stringify to non-numeric text and parse to 0. -/
def JVal.asNum : JVal → Rat
  | .vBool _ => 0
  | .vInt n => n
  | .vNum q => q

/-- An inbound WebSocket JSON document after deserialization.
`type?`/`data?` are `none` exactly when `containsKey` would be false in
the source; `device` holds the `atoi`-parsed device string. -/
structure JsonDoc where
  type? : Option String
  device : Int
  data? : Option (List (String × JVal))
deriving DecidableEq

/-- The `data` member as accessed by the handlers (they run under the
`containsKey("data")` guard of `processWSMessage`, so a missing mapping is
never observed; ArduinoJson would yield an empty object). -/
def JsonDoc.data (m : JsonDoc) : List (String × JVal) :=
  m.data?.getD []

/-- Modelled from the spec: `watchdog.h`/`watchdog.cpp` are not among the
provided sources. Per §3, a Heartbeat "holds last-fed timestamp; query
returns satisfied (fed within timeout) or expired". Timestamps are
milliseconds as `Nat`. -/
structure Watchdog where
  lastFed : Nat
deriving DecidableEq

/-- Modelled from the spec: the heartbeat timeout is "a fixed short
interval on the order of one second" (§4.2), in milliseconds. -/
def dsWatchdogTimeoutMs : Nat := 1000

/-- Modelled from the spec: `feed` records the current time as the
last-fed timestamp. -/
def Watchdog.feed (now : Nat) (_w : Watchdog) : Watchdog :=
  { lastFed := now }

/-- Modelled from the spec: the heartbeat is satisfied iff it was fed
within the configured timeout. -/
def Watchdog.satisfied (now : Nat) (w : Watchdog) : Bool :=
  now - w.lastFed ≤ dsWatchdogTimeoutMs

/-- Modelled from the spec: `robot.cpp` is not among the provided
sources. Per §3, the Safety State is "a single process-wide boolean
'robot enabled'"; `pwm` records the last value applied to each PWM
channel (neutral is 0). -/
structure RobotState where
  enabled : Bool
  pwm : Int → Rat

/-- Modelled from the spec: the robot-local part of the enabled-flag
mutation behind `xrp::setEnabled` (called from `wpilibws.cpp`) and
`xrp::robotSetEnabled` (called from `main.cpp`), which share the single
process-wide flag of §3. Per §4.2, a transition into DISABLED forces all
actuator outputs to neutral/off. The remaining §4.2 side effect of such
a transition — clearing the Outbound Queue — lives at the system level
and is modelled in `SysState.setEnabled`. -/
def RobotState.setEnabled (e : Bool) (r : RobotState) : RobotState :=
  if r.enabled ∧ ¬e then { enabled := e, pwm := fun _ => 0 }
  else { r with enabled := e }

/-- Modelled from the spec: `xrp::setPwmValue` applies a PWM value to a
channel, "suppressed when disabled" (§6): while the enabled flag is
false the call has no effect. -/
def RobotState.setPwmValue (channel : Int) (value : Rat) (r : RobotState) : RobotState :=
  if r.enabled then
    { r with pwm := fun c => if c = channel then value else r.pwm c }
  else r

/-- A Device Registry entry for an encoder: device id and the two
quadrature channel numbers. -/
abbrev EncoderEntry := Int × Int × Int

/-- Modelled from the spec: `xrp::configureEncoder` "create/overwrite the
Device Registry entry for that device with the two channel numbers"
(§4.1): an existing entry for the device is overwritten in place,
otherwise a new entry is appended. -/
def configureEncoderReg (deviceNum chA chB : Int) (reg : List EncoderEntry) :
    List EncoderEntry :=
  if reg.any (fun e => e.1 = deviceNum) then
    reg.map (fun e => if e.1 = deviceNum then (deviceNum, chA, chB) else e)
  else reg ++ [(deviceNum, chA, chB)]

/-- A call into the peripheral-driver layer, as emitted by the
dispatcher in `wpilibws.cpp`. -/
inductive DriverCall where
  | setPwm (channel : Int) (value : Rat)
  | configureEncoder (deviceNum chA chB : Int)
  | setEnabled (enabled : Bool)
deriving DecidableEq

/-- `wpilibws.cpp` `_handleDIOMessage`: empty body. -/
def _handleDIOMessage (_dioMsg : JsonDoc) : List DriverCall := []

/-- `wpilibws.cpp` `_handleGyroMessage`: empty body. -/
def _handleGyroMessage (_gyroMsg : JsonDoc) : List DriverCall := []

/-- `wpilibws.cpp` `_handleDSMessage`: feed the DS watchdog
unconditionally, then forward the `>enabled` field to `xrp::setEnabled`
when present. Returns the updated watchdog and the emitted driver
calls. -/
def _handleDSMessage (now : Nat) (dsMsg : JsonDoc) (w : Watchdog) :
    Watchdog × List DriverCall :=
  let w := w.feed now
  let data := dsMsg.data
  match data.lookup ">enabled" with
  | some v => (w, [DriverCall.setEnabled v.asBool])
  | none => (w, [])

/-- `wpilibws.cpp` `_handleEncoderMessage`: under the `<init` key, read
`<channel_a`/`<channel_b` with -1 as the missing-value default and call
`xrp::configureEncoder` only when init is true and both channels differ
from -1. -/
def _handleEncoderMessage (encMsg : JsonDoc) : List DriverCall :=
  let deviceNum := encMsg.device
  let data := encMsg.data
  match data.lookup "<init" with
  | some initV =>
    let initVal := initV.asBool
    let chA := match data.lookup "<channel_a" with
      | some v => v.asInt
      | none => -1
    let chB := match data.lookup "<channel_b" with
      | some v => v.asInt
      | none => -1
    if initVal ∧ chA ≠ -1 ∧ chB ≠ -1 then
      [DriverCall.configureEncoder deviceNum chA chB]
    else []
  | none => []

/-- `wpilibws.cpp` `_handlePWMMessage`: a `<speed` field is applied
verbatim on channels 0..3 only; otherwise a `<position` field is
remapped by `2*value - 1` and applied on channels above 3 only. -/
def _handlePWMMessage (pwmMsg : JsonDoc) : List DriverCall :=
  let channel := pwmMsg.device
  let data := pwmMsg.data
  match data.lookup "<speed" with
  | some v =>
    let value := v.asNum
    -- Only use the speed value for the builtin motors
    if 0 ≤ channel ∧ channel ≤ 3 then [DriverCall.setPwm channel value] else []
  | none =>
    match data.lookup "<position" with
    | some v =>
      let value := 2 * v.asNum - 1
      -- Use position values for other PWM
      if 3 < channel then [DriverCall.setPwm channel value] else []
    | none => []

/-- `wpilibws.cpp` `processWSMessage`: validity guard on the presence of
`type` and `data`, then string dispatch on the type. The `DIO` and
`Gyro` branches are empty in the source (TODO comments). -/
def processWSMessage (now : Nat) (jsonMsg : JsonDoc) (w : Watchdog) :
    Watchdog × List DriverCall :=
  match jsonMsg.type?, jsonMsg.data? with
  | some t, some _ =>
    if t = "PWM" then (w, _handlePWMMessage jsonMsg)
    else if t = "DriverStation" then _handleDSMessage now jsonMsg w
    else if t = "Encoder" then (w, _handleEncoderMessage jsonMsg)
    else if t = "DIO" then (w, [])
    else if t = "Gyro" then (w, [])
    else (w, [])
  | _, _ => (w, [])

/-- An outbound message payload. The source stores pre-serialized JSON
strings in `outboundMessages`; serialization is abstracted and the
payloads are kept structurally. -/
inductive OutMsg where
  | encoderMsg (deviceId : Int) (count : Int)
  | dioMsg (deviceId : Int) (value : Bool)
  | gyroMsg (axis : Nat) (rate : Rat) (angle : Rat)
deriving DecidableEq

/-- `wpilibws.cpp` `makeEncoderMessage`: an Encoder report for one device
carrying its `>count` (serialization abstracted). -/
def makeEncoderMessage (deviceId : Int) (count : Int) : OutMsg :=
  OutMsg.encoderMsg deviceId count

/-- Modelled from the spec: `makeDIOMessage` is declared in `wpilibws.h`
but its definition is not among the provided sources; per §4.3 it encodes
one message for the monitored digital input carrying its boolean state. -/
def makeDIOMessage (deviceId : Int) (value : Bool) : OutMsg :=
  OutMsg.dioMsg deviceId value

/-- Modelled from the spec: the gyro axis tag `wpilibws::AXIS_Z` (header
not among the provided sources); its concrete value is immaterial to the
claims. -/
def AXIS_Z : Nat := 2

/-- Modelled from the spec: `makeGyroSingleMessage` encodes "the
single-axis rate and integrated angle for the relevant axis" (§4.3). -/
def makeGyroSingleMessage (axis : Nat) (rate : Rat) (angle : Rat) : OutMsg :=
  OutMsg.gyroMsg axis rate angle

/-- The core state touched by one control-loop tick: the DS watchdog
(`wpilibws.cpp`), the robot enable flag and PWM outputs (`robot.cpp`,
modelled from the spec), the encoder Device Registry (`robot.cpp`,
modelled from the spec), the outbound message queue `outboundMessages`
and the `lastCheckedNumClients` static, both from `main.cpp`. -/
structure SysState where
  watchdog : Watchdog
  robot : RobotState
  registry : List EncoderEntry
  queue : List OutMsg
  lastCheckedNumClients : Int

/-- Modelled from the spec: the system-level effect of
`xrp::setEnabled`/`xrp::robotSetEnabled` (`robot.cpp` is not among the
provided sources). Per §4.2, "on any transition into `DISABLED`, side
effects: force all actuator outputs to neutral/off, clear the Outbound
Queue (do not flush stale commands after disable), and suppress further
actuation until re-enabled": when the flag goes from true to false the
PWM outputs are zeroed (via `RobotState.setEnabled`) and the Outbound
Queue is cleared; otherwise only the flag changes. -/
def SysState.setEnabled (e : Bool) (s : SysState) : SysState :=
  if s.robot.enabled ∧ ¬e then
    { s with robot := s.robot.setEnabled e, queue := [] }
  else { s with robot := s.robot.setEnabled e }

/-- Application of one driver call to the state: the driver layer behind
the dispatcher (modelled from the spec, see `SysState.setEnabled`,
`RobotState.setPwmValue`, `configureEncoderReg`). -/
def applyDriverCall (s : SysState) (c : DriverCall) : SysState :=
  match c with
  | .setPwm channel value => { s with robot := s.robot.setPwmValue channel value }
  | .configureEncoder deviceNum chA chB =>
      { s with registry := configureEncoderReg deviceNum chA chB s.registry }
  | .setEnabled e => s.setEnabled e

/-- Dispatch of one deserialized inbound message: `handleWSEvent`
(`main.cpp`) calls `wpilibws::processWSMessage`, whose driver calls take
effect through the driver layer. -/
def dispatchMessage (now : Nat) (msg : JsonDoc) (s : SysState) : SysState :=
  let res := processWSMessage now msg s.watchdog
  res.2.foldl applyDriverCall { s with watchdog := res.1 }

/-- `wsServer.loop()` at the top of `loop()`: every complete inbound
frame received since the last tick is deserialized and dispatched, in
order. -/
def drainInbound (now : Nat) (msgs : List JsonDoc) (s : SysState) : SysState :=
  msgs.foldl (fun s m => dispatchMessage now m s) s

/-- Modelled from the spec: the site that evaluates
`wpilibws::dsWatchdogActive` and disables the robot on heartbeat expiry
is not among the provided sources (`robot.cpp`/`watchdog.cpp`); per §5
step (2) and §4.2 (b), each tick evaluates the heartbeat and forces the
robot disabled when it has expired, with the full §4.2 transition side
effects of `SysState.setEnabled` (neutral outputs and a cleared Outbound
Queue when the robot was enabled). -/
def evalHeartbeat (now : Nat) (s : SysState) : SysState :=
  if s.watchdog.satisfied now then s
  else s.setEnabled false

/-- The sensor values the drivers report during one tick:
`xrp::robotPeriodic`'s change bitmask (`XRP_DATA_ENCODER` and
`XRP_DATA_DIO` bits as booleans), `getActiveEncoderValues`,
`isUserButtonPressed`, and the IMU readings — all driver code outside the
provided sources, treated as oracle inputs to the tick. -/
structure SensorReadings where
  encoderUpdated : Bool
  encValues : List (Int × Int)
  dioUpdated : Bool
  userButtonPressed : Bool
  imuDataReady : Bool
  gyroRateZ : Rat
  yawAngle : Rat

/-- The sampling-and-enqueue block of `loop()` (`main.cpp` lines
277-297): encoder messages for each active encoder when encoder data
changed, the user-button DIO message on DIO change, and a gyro message
when IMU data is ready; `sendMessage` appends to `outboundMessages`. -/
def sampleAndEnqueue (r : SensorReadings) (s : SysState) : SysState :=
  let s := if r.encoderUpdated then
      r.encValues.foldl
        (fun s p => { s with queue := s.queue ++ [makeEncoderMessage p.1 p.2] }) s
    else s
  let s := if r.dioUpdated then
      { s with queue := s.queue ++ [makeDIOMessage 0 r.userButtonPressed] }
    else s
  if r.imuDataReady then
    { s with queue := s.queue ++ [makeGyroSingleMessage AXIS_Z r.gyroRateZ r.yawAngle] }
  else s

/-- One iteration of `loop()` (`main.cpp` lines 255-303), returning the
new state and the messages broadcast this tick. In source order:
`wsServer.loop()` drains and dispatches inbound frames; the heartbeat is
evaluated (spec-modelled, see `evalHeartbeat`); the disconnect check
disables the robot and clears `outboundMessages` when the client count
dropped from positive to zero; then, only while a client is connected,
`checkAndSendMessages()` broadcasts and clears the queue, after which the
sensor sampling block enqueues fresh messages. `webServer.handleClient`,
`imuPeriodic`, `imuSetEnabled` and the loop-timing statistics touch no
core state and are omitted. The disconnect check of lines 264-271
("Disable the robot when we no longer have a connection") is split out
as `disconnectCheck`: when the stored client count is positive and the
current one is zero, call `robotSetEnabled(false)` and clear
`outboundMessages`; in all cases store the current count into
`lastCheckedNumClients`. -/
def disconnectCheck (numConnectedClients : Int) (s : SysState) : SysState :=
  let s := if s.lastCheckedNumClients > 0 ∧ numConnectedClients = 0 then
      { s with robot := s.robot.setEnabled false, queue := [] }
    else s
  { s with lastCheckedNumClients := numConnectedClients }

def tick (now : Nat) (inbound : List JsonDoc) (numConnectedClients : Int)
    (sensors : SensorReadings) (s : SysState) : SysState × List OutMsg :=
  let s := drainInbound now inbound s
  let s := evalHeartbeat now s
  let s := disconnectCheck numConnectedClients s
  if numConnectedClients > 0 then
    -- checkAndSendMessages(): broadcast every queued message, then clear
    let sent := s.queue
    let s := { s with queue := [] }
    let s := sampleAndEnqueue sensors s
    (s, sent)
  else (s, [])

/-! ### Helper lemmas about the driver layer and dispatch -/

theorem setPwmValue_enabled (channel : Int) (value : Rat) (r : RobotState) :
    (r.setPwmValue channel value).enabled = r.enabled := by
  unfold RobotState.setPwmValue
  split <;> rfl

theorem setEnabled_enabled (e : Bool) (r : RobotState) :
    (r.setEnabled e).enabled = e := by
  unfold RobotState.setEnabled
  split <;> rfl

theorem setPwmValue_disabled (channel : Int) (value : Rat) (r : RobotState)
    (h : r.enabled = false) : r.setPwmValue channel value = r := by
  unfold RobotState.setPwmValue
  rw [h]
  simp

theorem setEnabled_false_pwm (r : RobotState) :
    (r.setEnabled false).pwm = (fun _ => 0) ∨ (r.setEnabled false).pwm = r.pwm := by
  unfold RobotState.setEnabled
  split
  · exact Or.inl rfl
  · exact Or.inr rfl

theorem sysSetEnabled_watchdog (e : Bool) (s : SysState) :
    (s.setEnabled e).watchdog = s.watchdog := by
  unfold SysState.setEnabled
  split <;> rfl

theorem sysSetEnabled_lastChecked (e : Bool) (s : SysState) :
    (s.setEnabled e).lastCheckedNumClients = s.lastCheckedNumClients := by
  unfold SysState.setEnabled
  split <;> rfl

theorem sysSetEnabled_registry (e : Bool) (s : SysState) :
    (s.setEnabled e).registry = s.registry := by
  unfold SysState.setEnabled
  split <;> rfl

theorem sysSetEnabled_robot (e : Bool) (s : SysState) :
    (s.setEnabled e).robot = s.robot.setEnabled e := by
  unfold SysState.setEnabled
  split <;> rfl

theorem sysSetEnabled_enabled (e : Bool) (s : SysState) :
    (s.setEnabled e).robot.enabled = e := by
  rw [sysSetEnabled_robot, setEnabled_enabled]

/-- A transition into DISABLED (flag true, request false) performs the
full §4.2 side effects: neutral outputs and a cleared Outbound Queue. -/
theorem sysSetEnabled_transition (s : SysState) (h : s.robot.enabled = true) :
    s.setEnabled false =
      { s with robot := s.robot.setEnabled false, queue := [] } := by
  unfold SysState.setEnabled
  rw [if_pos ⟨h, by simp⟩]

/-- The robot-level transition into DISABLED zeroes every PWM output. -/
theorem setEnabled_transition_pwm (r : RobotState) (h : r.enabled = true) :
    r.setEnabled false = ⟨false, fun _ => 0⟩ := by
  unfold RobotState.setEnabled
  rw [if_pos ⟨h, by simp⟩]

theorem applyCalls_lastChecked (l : List DriverCall) (s : SysState) :
    (l.foldl applyDriverCall s).lastCheckedNumClients = s.lastCheckedNumClients := by
  induction l generalizing s with
  | nil => rfl
  | cons c l ih =>
    rw [List.foldl_cons, ih]
    cases c with
    | setPwm channel value => rfl
    | configureEncoder deviceNum chA chB => rfl
    | setEnabled e => exact sysSetEnabled_lastChecked e s

theorem applyCalls_watchdog (l : List DriverCall) (s : SysState) :
    (l.foldl applyDriverCall s).watchdog = s.watchdog := by
  induction l generalizing s with
  | nil => rfl
  | cons c l ih =>
    rw [List.foldl_cons, ih]
    cases c with
    | setPwm channel value => rfl
    | configureEncoder deviceNum chA chB => rfl
    | setEnabled e => exact sysSetEnabled_watchdog e s

theorem dispatch_lastChecked (now : Nat) (m : JsonDoc) (s : SysState) :
    (dispatchMessage now m s).lastCheckedNumClients = s.lastCheckedNumClients := by
  unfold dispatchMessage
  rw [applyCalls_lastChecked]

theorem drain_lastChecked (now : Nat) (l : List JsonDoc) (s : SysState) :
    (drainInbound now l s).lastCheckedNumClients = s.lastCheckedNumClients := by
  unfold drainInbound
  induction l generalizing s with
  | nil => rfl
  | cons m l ih => rw [List.foldl_cons, ih, dispatch_lastChecked]

/-- Only the `DriverStation` branch of `processWSMessage` touches the
watchdog. -/
theorem dispatch_watchdog_nonDS (now : Nat) (m : JsonDoc) (s : SysState)
    (h : m.type? ≠ some "DriverStation") :
    (dispatchMessage now m s).watchdog = s.watchdog := by
  unfold dispatchMessage
  rw [applyCalls_watchdog]
  unfold processWSMessage
  rcases hm : m.type? with _ | t
  · rfl
  · rcases hd : m.data? with _ | d
    · rfl
    · by_cases h1 : t = "PWM"
      · simp [h1]
      · have h2 : t ≠ "DriverStation" := by
          intro he
          exact h (by rw [hm, he])
        by_cases h3 : t = "Encoder" <;> by_cases h4 : t = "DIO" <;>
          by_cases h5 : t = "Gyro" <;> simp [h1, h2, h3, h4, h5]

theorem drain_watchdog_nonDS (now : Nat) (l : List JsonDoc) (s : SysState)
    (h : ∀ m ∈ l, m.type? ≠ some "DriverStation") :
    (drainInbound now l s).watchdog = s.watchdog := by
  unfold drainInbound
  induction l generalizing s with
  | nil => rfl
  | cons m l ih =>
    rw [List.foldl_cons]
    rw [ih _ (fun m hm => h m (List.mem_cons_of_mem _ hm))]
    exact dispatch_watchdog_nonDS now m s (h m (List.mem_cons_self _ _))

/-! ### Equational characterization of dispatch, per message shape -/

theorem dispatch_eq_noType (now : Nat) (m : JsonDoc) (s : SysState)
    (hm : m.type? = none) : dispatchMessage now m s = s := by
  simp only [dispatchMessage, processWSMessage, hm, List.foldl_nil]

theorem dispatch_eq_noData (now : Nat) (m : JsonDoc) (s : SysState)
    (hd : m.data? = none) : dispatchMessage now m s = s := by
  rcases hm : m.type? with _ | t <;>
    simp only [dispatchMessage, processWSMessage, hm, hd, List.foldl_nil]

theorem dispatch_eq_pwm (now : Nat) (m : JsonDoc) (s : SysState)
    (d : List (String × JVal))
    (hm : m.type? = some "PWM") (hd : m.data? = some d) :
    dispatchMessage now m s = (_handlePWMMessage m).foldl applyDriverCall s := by
  simp only [dispatchMessage, processWSMessage, hm, hd, if_true, reduceIte]

theorem dispatch_eq_encoder (now : Nat) (m : JsonDoc) (s : SysState)
    (d : List (String × JVal))
    (hm : m.type? = some "Encoder") (hd : m.data? = some d) :
    dispatchMessage now m s = (_handleEncoderMessage m).foldl applyDriverCall s := by
  simp only [dispatchMessage, processWSMessage, hm, hd]
  rfl

theorem dispatch_eq_ds_none (now : Nat) (m : JsonDoc) (s : SysState)
    (d : List (String × JVal))
    (hm : m.type? = some "DriverStation") (hd : m.data? = some d)
    (hv : d.lookup ">enabled" = none) :
    dispatchMessage now m s = { s with watchdog := ⟨now⟩ } := by
  have hdata : JsonDoc.data m = d := by rw [JsonDoc.data, hd]; rfl
  simp only [dispatchMessage, processWSMessage, _handleDSMessage, hm, hd,
    hdata, hv, Watchdog.feed]
  rfl

theorem dispatch_eq_ds_some (now : Nat) (m : JsonDoc) (s : SysState)
    (d : List (String × JVal)) (v : JVal)
    (hm : m.type? = some "DriverStation") (hd : m.data? = some d)
    (hv : d.lookup ">enabled" = some v) :
    dispatchMessage now m s =
      SysState.setEnabled v.asBool { s with watchdog := ⟨now⟩ } := by
  have hdata : JsonDoc.data m = d := by rw [JsonDoc.data, hd]; rfl
  simp only [dispatchMessage, processWSMessage, _handleDSMessage, hm, hd,
    hdata, hv, Watchdog.feed]
  rfl

theorem dispatch_eq_other (now : Nat) (m : JsonDoc) (s : SysState)
    (t : String) (d : List (String × JVal))
    (hm : m.type? = some t) (hd : m.data? = some d)
    (h1 : t ≠ "PWM") (h2 : t ≠ "DriverStation") (h3 : t ≠ "Encoder") :
    dispatchMessage now m s = s := by
  by_cases h4 : t = "DIO" <;> by_cases h5 : t = "Gyro" <;>
    simp only [dispatchMessage, processWSMessage, hm, hd, h1, h2, h3, h4, h5,
      if_false, if_true, reduceIte, List.foldl_nil] <;> rfl

/-- The PWM handler emits no call or exactly one `setPwm` call. -/
theorem pwm_calls_shape (m : JsonDoc) :
    _handlePWMMessage m = [] ∨
    ∃ c v, _handlePWMMessage m = [DriverCall.setPwm c v] := by
  rcases hs : (JsonDoc.data m).lookup "<speed" with _ | v
  · rcases hp : (JsonDoc.data m).lookup "<position" with _ | v
    · left
      simp only [_handlePWMMessage, hs, hp]
    · simp only [_handlePWMMessage, hs, hp]
      by_cases hc : 3 < m.device
      · right
        exact ⟨_, _, by rw [if_pos hc]⟩
      · left
        rw [if_neg hc]
  · simp only [_handlePWMMessage, hs]
    by_cases hc : 0 ≤ m.device ∧ m.device ≤ 3
    · right
      exact ⟨_, _, by rw [if_pos hc]⟩
    · left
      rw [if_neg hc]

/-- The Encoder handler emits no call or exactly one `configureEncoder`
call. -/
theorem enc_calls_shape (m : JsonDoc) :
    _handleEncoderMessage m = [] ∨
    ∃ d a b, _handleEncoderMessage m = [DriverCall.configureEncoder d a b] := by
  rcases hi : (JsonDoc.data m).lookup "<init" with _ | i
  · left
    simp only [_handleEncoderMessage, hi]
  · simp only [_handleEncoderMessage, hi]
    split
    · right
      exact ⟨_, _, _, rfl⟩
    · left
      rfl

/-- Dispatching one message either leaves the watchdog alone or feeds it
at the current time. -/
theorem dispatch_watchdog_cases (now : Nat) (m : JsonDoc) (s : SysState) :
    (dispatchMessage now m s).watchdog = s.watchdog ∨
    (dispatchMessage now m s).watchdog = ⟨now⟩ := by
  by_cases ht : m.type? = some "DriverStation"
  · rcases hd : m.data? with _ | d
    · left
      rw [dispatch_eq_noData now m s hd]
    · rcases hv : d.lookup ">enabled" with _ | v
      · right
        rw [dispatch_eq_ds_none now m s d ht hd hv]
      · right
        rw [dispatch_eq_ds_some now m s d v ht hd hv, sysSetEnabled_watchdog]
  · left
    exact dispatch_watchdog_nonDS now m s ht

theorem dispatch_keepsFed (now : Nat) (m : JsonDoc) (s : SysState)
    (h : s.watchdog.lastFed = now) :
    (dispatchMessage now m s).watchdog.lastFed = now := by
  rcases dispatch_watchdog_cases now m s with hc | hc
  · rw [hc]
    exact h
  · rw [hc]

theorem drain_keepsFed (now : Nat) (l : List JsonDoc) (s : SysState)
    (h : s.watchdog.lastFed = now) :
    (drainInbound now l s).watchdog.lastFed = now := by
  unfold drainInbound
  induction l generalizing s with
  | nil => exact h
  | cons m l ih =>
    rw [List.foldl_cons]
    exact ih _ (dispatch_keepsFed now m s h)

/-- Inversion for an enable transition during dispatch of one message:
only a `DriverStation` message whose data carries `>enabled` with a true
value can flip the robot from disabled to enabled, and doing so leaves
the watchdog freshly fed. -/
theorem dispatch_flip (now : Nat) (m : JsonDoc) (s : SysState)
    (h0 : s.robot.enabled = false)
    (h1 : (dispatchMessage now m s).robot.enabled = true) :
    m.type? = some "DriverStation" ∧
    (∃ d, m.data? = some d ∧ ∃ v, d.lookup ">enabled" = some v ∧ v.asBool = true) ∧
    (dispatchMessage now m s).watchdog.lastFed = now := by
  rcases hm : m.type? with _ | t
  · rw [dispatch_eq_noType now m s hm, h0] at h1
    exact absurd h1 (by simp)
  · rcases hd : m.data? with _ | d
    · rw [dispatch_eq_noData now m s hd, h0] at h1
      exact absurd h1 (by simp)
    · by_cases h2 : t = "PWM"
      · subst h2
        rw [dispatch_eq_pwm now m s d hm hd] at h1
        rcases pwm_calls_shape m with hc | ⟨c, v, hc⟩ <;> rw [hc] at h1
        · rw [List.foldl_nil, h0] at h1
          exact absurd h1 (by simp)
        · rw [List.foldl_cons, List.foldl_nil] at h1
          have hr : (applyDriverCall s (DriverCall.setPwm c v)).robot.enabled =
              s.robot.enabled := by
            simp only [applyDriverCall, setPwmValue_enabled]
          rw [hr, h0] at h1
          exact absurd h1 (by simp)
      · by_cases h3 : t = "DriverStation"
        · subst h3
          rcases hv : d.lookup ">enabled" with _ | v
          · rw [dispatch_eq_ds_none now m s d hm hd hv] at h1
            have h1' : s.robot.enabled = true := h1
            rw [h0] at h1'
            exact absurd h1' (by simp)
          · rw [dispatch_eq_ds_some now m s d v hm hd hv] at h1
            rw [sysSetEnabled_enabled] at h1
            refine ⟨rfl, ⟨d, rfl, v, hv, h1⟩, ?_⟩
            rw [dispatch_eq_ds_some now m s d v hm hd hv, sysSetEnabled_watchdog]
        · by_cases h4 : t = "Encoder"
          · subst h4
            rw [dispatch_eq_encoder now m s d hm hd] at h1
            rcases enc_calls_shape m with hc | ⟨d1, a1, b1, hc⟩ <;> rw [hc] at h1
            · rw [List.foldl_nil, h0] at h1
              exact absurd h1 (by simp)
            · rw [List.foldl_cons, List.foldl_nil] at h1
              have hr : (applyDriverCall s
                  (DriverCall.configureEncoder d1 a1 b1)).robot = s.robot := rfl
              rw [hr, h0] at h1
              exact absurd h1 (by simp)
          · rw [dispatch_eq_other now m s t d hm hd h2 h3 h4, h0] at h1
            exact absurd h1 (by simp)

/-- Inversion for an enable transition during the inbound drain: some
drained message was a `DriverStation` message requesting enabled=true,
and the watchdog ends the drain fed at the current time. -/
theorem drain_flip (now : Nat) (l : List JsonDoc) (s : SysState)
    (h0 : s.robot.enabled = false)
    (h1 : (drainInbound now l s).robot.enabled = true) :
    (∃ m ∈ l, m.type? = some "DriverStation" ∧
      ∃ d, m.data? = some d ∧ ∃ v, d.lookup ">enabled" = some v ∧ v.asBool = true) ∧
    (drainInbound now l s).watchdog.lastFed = now := by
  induction l generalizing s with
  | nil =>
    rw [drainInbound, List.foldl_nil, h0] at h1
    exact absurd h1 (by simp)
  | cons m l ih =>
    have hstep : drainInbound now (m :: l) s =
        drainInbound now l (dispatchMessage now m s) := by
      rw [drainInbound, List.foldl_cons]
      rfl
    by_cases he : (dispatchMessage now m s).robot.enabled = true
    · obtain ⟨hDS, hfield, hfed⟩ := dispatch_flip now m s h0 he
      refine ⟨⟨m, List.mem_cons_self _ _, hDS, hfield⟩, ?_⟩
      rw [hstep]
      exact drain_keepsFed now l _ hfed
    · have he' : (dispatchMessage now m s).robot.enabled = false := by
        rcases Bool.eq_false_or_eq_true (dispatchMessage now m s).robot.enabled with h | h
        · exact absurd h he
        · exact h
      rw [hstep] at h1
      obtain ⟨⟨m1, hm1, hrest⟩, hfed⟩ := ih _ he' h1
      exact ⟨⟨m1, List.mem_cons_of_mem _ hm1, hrest⟩, by rw [hstep]; exact hfed⟩

/-! ### Projection lemmas for the tick phases -/

theorem evalHeartbeat_lastChecked (now : Nat) (s : SysState) :
    (evalHeartbeat now s).lastCheckedNumClients = s.lastCheckedNumClients := by
  unfold evalHeartbeat
  split
  · rfl
  · exact sysSetEnabled_lastChecked false s

theorem evalHeartbeat_watchdog (now : Nat) (s : SysState) :
    (evalHeartbeat now s).watchdog = s.watchdog := by
  unfold evalHeartbeat
  split
  · rfl
  · exact sysSetEnabled_watchdog false s

theorem evalHeartbeat_enabled_mono (now : Nat) (s : SysState)
    (h : (evalHeartbeat now s).robot.enabled = true) : s.robot.enabled = true := by
  unfold evalHeartbeat at h
  by_cases hs : s.watchdog.satisfied now = true
  · rwa [if_pos hs] at h
  · rw [if_neg hs, sysSetEnabled_enabled] at h
    exact absurd h (by simp)

theorem evalHeartbeat_expired (now : Nat) (s : SysState)
    (h : s.watchdog.satisfied now = false) :
    (evalHeartbeat now s).robot.enabled = false := by
  unfold evalHeartbeat
  rw [if_neg (by rw [h]; simp)]
  exact sysSetEnabled_enabled false s

theorem enqFold_robot (l : List (Int × Int)) (s : SysState) :
    (l.foldl (fun s p =>
      { s with queue := s.queue ++ [makeEncoderMessage p.1 p.2] }) s).robot = s.robot := by
  induction l generalizing s with
  | nil => rfl
  | cons p l ih => rw [List.foldl_cons, ih]

theorem enqFold_watchdog (l : List (Int × Int)) (s : SysState) :
    (l.foldl (fun s p =>
      { s with queue := s.queue ++ [makeEncoderMessage p.1 p.2] }) s).watchdog = s.watchdog := by
  induction l generalizing s with
  | nil => rfl
  | cons p l ih => rw [List.foldl_cons, ih]

theorem enqFold_queue (l : List (Int × Int)) (s : SysState) :
    (l.foldl (fun s p =>
      { s with queue := s.queue ++ [makeEncoderMessage p.1 p.2] }) s).queue =
      s.queue ++ l.map (fun p => makeEncoderMessage p.1 p.2) := by
  induction l generalizing s with
  | nil => simp
  | cons p l ih =>
    rw [List.foldl_cons, ih]
    simp

theorem sample_robot (r : SensorReadings) (s : SysState) :
    (sampleAndEnqueue r s).robot = s.robot := by
  unfold sampleAndEnqueue
  split <;> split <;> split <;> simp [enqFold_robot]

theorem sample_watchdog (r : SensorReadings) (s : SysState) :
    (sampleAndEnqueue r s).watchdog = s.watchdog := by
  unfold sampleAndEnqueue
  split <;> split <;> split <;> simp [enqFold_watchdog]

/-- The messages the sampling block of `loop()` enqueues during one tick,
in order. -/
def sampledMsgs (r : SensorReadings) : List OutMsg :=
  (if r.encoderUpdated then r.encValues.map (fun p => makeEncoderMessage p.1 p.2) else [])
  ++ (if r.dioUpdated then [makeDIOMessage 0 r.userButtonPressed] else [])
  ++ (if r.imuDataReady then [makeGyroSingleMessage AXIS_Z r.gyroRateZ r.yawAngle] else [])

theorem sample_queue (r : SensorReadings) (s : SysState) :
    (sampleAndEnqueue r s).queue = s.queue ++ sampledMsgs r := by
  unfold sampleAndEnqueue sampledMsgs
  split <;> split <;> split <;> simp [enqFold_queue]

theorem disconnectCheck_watchdog (c : Int) (s : SysState) :
    (disconnectCheck c s).watchdog = s.watchdog := by
  simp only [disconnectCheck]
  split <;> rfl

theorem disconnectCheck_triggered (c : Int) (s : SysState)
    (h1 : s.lastCheckedNumClients > 0) (h2 : c = 0) :
    disconnectCheck c s =
      ⟨s.watchdog, s.robot.setEnabled false, s.registry, [], c⟩ := by
  simp only [disconnectCheck]
  rw [if_pos ⟨h1, h2⟩]

theorem disconnectCheck_not_triggered (c : Int) (s : SysState)
    (h : ¬(s.lastCheckedNumClients > 0 ∧ c = 0)) :
    disconnectCheck c s = { s with lastCheckedNumClients := c } := by
  simp only [disconnectCheck]
  rw [if_neg h]

theorem disconnectCheck_robot_cases (c : Int) (s : SysState) :
    (disconnectCheck c s).robot = s.robot ∨
    (disconnectCheck c s).robot = s.robot.setEnabled false := by
  simp only [disconnectCheck]
  split
  · exact Or.inr rfl
  · exact Or.inl rfl

theorem disconnectCheck_enabled_false (c : Int) (s : SysState)
    (h : s.robot.enabled = false) :
    (disconnectCheck c s).robot.enabled = false := by
  rcases disconnectCheck_robot_cases c s with h' | h' <;> rw [h']
  · exact h
  · exact setEnabled_enabled false s.robot

theorem disconnectCheck_enabled_mono (c : Int) (s : SysState)
    (h : (disconnectCheck c s).robot.enabled = true) :
    s.robot.enabled = true := by
  rcases disconnectCheck_robot_cases c s with h' | h'
  · rw [h'] at h
    exact h
  · rw [h', setEnabled_enabled] at h
    exact absurd h (by simp)

/-- Characterization of a tick while a client is connected: flush the
queue as the broadcast, then sample into the emptied queue. -/
theorem tick_pos (now : Nat) (inbound : List JsonDoc) (clients : Int)
    (sensors : SensorReadings) (s : SysState) (h : clients > 0) :
    tick now inbound clients sensors s =
      (sampleAndEnqueue sensors
        { disconnectCheck clients (evalHeartbeat now (drainInbound now inbound s))
          with queue := [] },
        (disconnectCheck clients
          (evalHeartbeat now (drainInbound now inbound s))).queue) := by
  simp only [tick]
  rw [if_pos h]

/-- Characterization of a tick with no client connected: nothing is
broadcast and nothing is sampled. -/
theorem tick_nonpos (now : Nat) (inbound : List JsonDoc) (clients : Int)
    (sensors : SensorReadings) (s : SysState) (h : ¬clients > 0) :
    tick now inbound clients sensors s =
      (disconnectCheck clients (evalHeartbeat now (drainInbound now inbound s)),
        []) := by
  simp only [tick]
  rw [if_neg h]

/-- Dispatching a PWM message while the robot is disabled has no effect
at all: the only call it can emit is `setPwm`, which the driver
suppresses. -/
theorem dispatch_pwm_disabled (now : Nat) (m : JsonDoc) (s : SysState)
    (ht : m.type? = some "PWM") (hd : s.robot.enabled = false) :
    dispatchMessage now m s = s := by
  rcases hdata : m.data? with _ | d
  · exact dispatch_eq_noData now m s hdata
  · rw [dispatch_eq_pwm now m s d ht hdata]
    rcases pwm_calls_shape m with h | ⟨c, v, h⟩ <;> rw [h]
    · rfl
    · simp only [List.foldl_cons, List.foldl_nil, applyDriverCall,
        setPwmValue_disabled c v s.robot hd]

/-! ### Registry lemmas (Device Registry, modelled from the spec) -/

theorem configureEncoderReg_idem (dev a b : Int) (reg : List EncoderEntry) :
    configureEncoderReg dev a b (configureEncoderReg dev a b reg) =
      configureEncoderReg dev a b reg := by
  unfold configureEncoderReg
  by_cases h : reg.any (fun e => e.1 = dev) = true
  · rw [if_pos h]
    have h2 : (reg.map (fun e => if e.1 = dev then (dev, a, b) else e)).any
        (fun e => e.1 = dev) = true := by
      rw [List.any_eq_true] at h ⊢
      obtain ⟨e, he, hp⟩ := h
      refine ⟨if e.1 = dev then (dev, a, b) else e, List.mem_map_of_mem _ he, ?_⟩
      rw [decide_eq_true_eq] at hp
      rw [if_pos hp]
      simp
    rw [if_pos h2, List.map_map]
    refine List.map_congr_left (fun e _ => ?_)
    by_cases he : e.1 = dev
    · simp [he]
    · simp [he]
  · rw [if_neg h]
    rw [Bool.not_eq_true] at h
    rw [List.any_eq_false] at h
    have h2 : (reg ++ [(dev, a, b)]).any (fun e => e.1 = dev) = true := by
      rw [List.any_append]
      simp
    rw [if_pos h2, List.map_append]
    have h3 : reg.map (fun e => if e.1 = dev then (dev, a, b) else e) = reg := by
      conv_rhs => rw [← List.map_id reg]
      refine List.map_congr_left (fun e he => ?_)
      have hne : ¬ e.1 = dev := by
        have := h e he
        simpa using this
      rw [if_neg hne]
      rfl
    rw [h3]
    simp

theorem configureEncoderReg_filter_fresh (dev a b : Int) (reg : List EncoderEntry)
    (h : reg.any (fun e => e.1 = dev) = false) :
    (configureEncoderReg dev a b reg).filter (fun e => e.1 = dev) = [(dev, a, b)] := by
  unfold configureEncoderReg
  rw [if_neg (by rw [h]; exact Bool.false_ne_true), List.filter_append]
  have hall := List.any_eq_false.mp h
  have h2 : reg.filter (fun e => e.1 = dev) = [] := by
    rw [List.filter_eq_nil_iff]
    intro e he
    exact hall e he
  rw [h2]
  simp

/-! ### Claim theorems -/

/-- C5: for every PWM message whose device parses to a channel
c ∈ {0,1,2,3} and whose data contains a `<speed` field with value s,
dispatching it emits exactly one driver call `setPwm(c, s)` with the
value unmodified. The conclusion is fully determined by the `<speed`
lookup alone, so a `<position` field present in the same data mapping
(as in the witness below) is never consulted and has no effect. -/
theorem C5_pwm_speed_exact (now : Nat) (w : Watchdog) (m : JsonDoc)
    (d : List (String × JVal)) (v : JVal)
    (hm : m.type? = some "PWM") (hd : m.data? = some d)
    (hs : d.lookup "<speed" = some v)
    (h0 : 0 ≤ m.device) (h3 : m.device ≤ 3) :
    processWSMessage now m w = (w, [DriverCall.setPwm m.device v.asNum]) := by
  have hdata : JsonDoc.data m = d := by rw [JsonDoc.data, hd]; rfl
  simp only [processWSMessage, hm, hd]
  rw [if_pos trivial]
  simp only [_handlePWMMessage, hdata, hs]
  rw [if_pos ⟨h0, h3⟩]

/-- C5 witness: channel 2, speed 1, with a `<position` field also
present in the same message. -/
theorem C5_pwm_speed_exact_witness :
    (([("<speed", JVal.vNum 1), ("<position", JVal.vNum 0)] :
        List (String × JVal)).lookup "<speed" = some (JVal.vNum 1))
    ∧ processWSMessage 7
        ⟨some "PWM", 2, some [("<speed", JVal.vNum 1), ("<position", JVal.vNum 0)]⟩
        ⟨3⟩ = (⟨3⟩, [DriverCall.setPwm 2 1]) :=
  ⟨by decide,
    C5_pwm_speed_exact 7 ⟨3⟩
      ⟨some "PWM", 2, some [("<speed", JVal.vNum 1), ("<position", JVal.vNum 0)]⟩
      [("<speed", JVal.vNum 1), ("<position", JVal.vNum 0)] (JVal.vNum 1)
      rfl rfl (by decide) (by decide) (by decide)⟩

/-- C6: for every PWM message whose device parses to a channel c > 3 and
whose data contains a `<position` field with value p and no `<speed`
field, dispatching it emits the single call `setPwm(c, 2p-1)`; a
`<position` field targeting c ≤ 3 (with no `<speed` field) emits no
driver call, and a `<speed` field targeting c > 3 emits no driver call
at all. -/
theorem C6_pwm_position_remap (now : Nat) (w : Watchdog) (m : JsonDoc)
    (d : List (String × JVal))
    (hm : m.type? = some "PWM") (hd : m.data? = some d) :
    (∀ p, d.lookup "<speed" = none → d.lookup "<position" = some p →
      3 < m.device →
      processWSMessage now m w = (w, [DriverCall.setPwm m.device (2 * p.asNum - 1)]))
    ∧ (∀ p, d.lookup "<speed" = none → d.lookup "<position" = some p →
      m.device ≤ 3 →
      processWSMessage now m w = (w, []))
    ∧ (∀ v, d.lookup "<speed" = some v → 3 < m.device →
      processWSMessage now m w = (w, [])) := by
  have hdata : JsonDoc.data m = d := by rw [JsonDoc.data, hd]; rfl
  refine ⟨?_, ?_, ?_⟩
  · intro p hs hp hc
    simp only [processWSMessage, hm, hd]
    rw [if_pos trivial]
    simp only [_handlePWMMessage, hdata, hs, hp]
    rw [if_pos hc]
  · intro p hs hp hc
    simp only [processWSMessage, hm, hd]
    rw [if_pos trivial]
    simp only [_handlePWMMessage, hdata, hs, hp]
    rw [if_neg (not_lt.mpr hc)]
  · intro v hs hc
    simp only [processWSMessage, hm, hd]
    rw [if_pos trivial]
    simp only [_handlePWMMessage, hdata, hs]
    rw [if_neg (fun h => absurd h.2 (not_le.mpr hc))]

/-- C6 witness: a positional message on channel 5 (position 1, giving
`2*1-1`), a positional message on channel 2 (no call), and a speed
message on channel 5 (no call). -/
theorem C6_pwm_position_remap_witness :
    processWSMessage 7 ⟨some "PWM", 5, some [("<position", JVal.vNum 1)]⟩ ⟨3⟩ =
      (⟨3⟩, [DriverCall.setPwm 5 (2 * (JVal.vNum 1).asNum - 1)])
    ∧ processWSMessage 7 ⟨some "PWM", 2, some [("<position", JVal.vNum 1)]⟩ ⟨3⟩ =
      (⟨3⟩, [])
    ∧ processWSMessage 7 ⟨some "PWM", 5, some [("<speed", JVal.vNum 1)]⟩ ⟨3⟩ =
      (⟨3⟩, []) :=
  ⟨(C6_pwm_position_remap 7 ⟨3⟩ ⟨some "PWM", 5, some [("<position", JVal.vNum 1)]⟩
      [("<position", JVal.vNum 1)] rfl rfl).1 (JVal.vNum 1)
      (by decide) (by decide) (by decide),
    (C6_pwm_position_remap 7 ⟨3⟩ ⟨some "PWM", 2, some [("<position", JVal.vNum 1)]⟩
      [("<position", JVal.vNum 1)] rfl rfl).2.1 (JVal.vNum 1)
      (by decide) (by decide) (by decide),
    (C6_pwm_position_remap 7 ⟨3⟩ ⟨some "PWM", 5, some [("<speed", JVal.vNum 1)]⟩
      [("<speed", JVal.vNum 1)] rfl rfl).2.2 (JVal.vNum 1)
      (by decide) (by decide)⟩

/-- C8: a message missing the `type` key or the `data` key, or carrying
an unrecognized type, dispatches to a complete no-op (no state change,
no driver call), and the recognized types `DIO` and `Gyro` are likewise
no-ops. -/
theorem C8_invalid_and_reserved_noop (now : Nat) (m : JsonDoc) (s : SysState) :
    (m.type? = none → dispatchMessage now m s = s)
    ∧ (m.data? = none → dispatchMessage now m s = s)
    ∧ (∀ t, m.type? = some t → t ≠ "PWM" → t ≠ "DriverStation" →
        t ≠ "Encoder" → t ≠ "DIO" → t ≠ "Gyro" → dispatchMessage now m s = s)
    ∧ ((m.type? = some "DIO" ∨ m.type? = some "Gyro") →
        dispatchMessage now m s = s) := by
  refine ⟨fun h => dispatch_eq_noType now m s h,
    fun h => dispatch_eq_noData now m s h, ?_, ?_⟩
  · intro t hm h1 h2 h3 _ _
    rcases hd : m.data? with _ | d
    · exact dispatch_eq_noData now m s hd
    · exact dispatch_eq_other now m s t d hm hd h1 h2 h3
  · intro hor
    rcases hd : m.data? with _ | d
    · exact dispatch_eq_noData now m s hd
    · rcases hor with h | h
      · exact dispatch_eq_other now m s "DIO" d h hd
          (by decide) (by decide) (by decide)
      · exact dispatch_eq_other now m s "Gyro" d h hd
          (by decide) (by decide) (by decide)

/-- C8 witness: a message with no type, a message with no data, an
unrecognized type, and the reserved `DIO` and `Gyro` types all leave a
concrete state completely unchanged. -/
theorem C8_invalid_and_reserved_noop_witness :
    ((⟨none, 0, some []⟩ : JsonDoc).type? = none
    ∧ dispatchMessage 3 ⟨none, 0, some []⟩
        ⟨⟨5⟩, ⟨true, fun _ => 0⟩, [], [], 1⟩ = ⟨⟨5⟩, ⟨true, fun _ => 0⟩, [], [], 1⟩)
    ∧ ((⟨some "PWM", 0, none⟩ : JsonDoc).data? = none
    ∧ dispatchMessage 3 ⟨some "PWM", 0, none⟩
        ⟨⟨5⟩, ⟨true, fun _ => 0⟩, [], [], 1⟩ = ⟨⟨5⟩, ⟨true, fun _ => 0⟩, [], [], 1⟩)
    ∧ dispatchMessage 3 ⟨some "CANMotor", 0, some []⟩
        ⟨⟨5⟩, ⟨true, fun _ => 0⟩, [], [], 1⟩ = ⟨⟨5⟩, ⟨true, fun _ => 0⟩, [], [], 1⟩
    ∧ dispatchMessage 3 ⟨some "DIO", 0, some []⟩
        ⟨⟨5⟩, ⟨true, fun _ => 0⟩, [], [], 1⟩ = ⟨⟨5⟩, ⟨true, fun _ => 0⟩, [], [], 1⟩
    ∧ dispatchMessage 3 ⟨some "Gyro", 0, some []⟩
        ⟨⟨5⟩, ⟨true, fun _ => 0⟩, [], [], 1⟩ = ⟨⟨5⟩, ⟨true, fun _ => 0⟩, [], [], 1⟩ :=
  ⟨⟨rfl, (C8_invalid_and_reserved_noop 3 _ _).1 rfl⟩,
    ⟨rfl, (C8_invalid_and_reserved_noop 3 _ _).2.1 rfl⟩,
    (C8_invalid_and_reserved_noop 3 _ _).2.2.1 "CANMotor" rfl
      (by decide) (by decide) (by decide) (by decide) (by decide),
    (C8_invalid_and_reserved_noop 3 _ _).2.2.2 (Or.inl rfl),
    (C8_invalid_and_reserved_noop 3 _ _).2.2.2 (Or.inr rfl)⟩

/-- C10: for an Encoder message with init true, a `<channel_a` or
`<channel_b` field present with value -1 is treated exactly like a
missing field (no configuration), because -1 is the internal
missing-channel sentinel; consequently no `configureEncoder` call ever
carries -1 as a channel. -/
theorem C10_encoder_sentinel (now : Nat) (w : Watchdog) (m : JsonDoc)
    (d : List (String × JVal)) (i : JVal)
    (hm : m.type? = some "Encoder") (hd : m.data? = some d)
    (hi : d.lookup "<init" = some i) (hit : i.asBool = true) :
    (∀ va, d.lookup "<channel_a" = some va → va.asInt = -1 →
      processWSMessage now m w = (w, []))
    ∧ (∀ vb, d.lookup "<channel_b" = some vb → vb.asInt = -1 →
      processWSMessage now m w = (w, []))
    ∧ (∀ dev a b, DriverCall.configureEncoder dev a b ∈ _handleEncoderMessage m →
      a ≠ -1 ∧ b ≠ -1) := by
  have hdata : JsonDoc.data m = d := by rw [JsonDoc.data, hd]; rfl
  refine ⟨?_, ?_, ?_⟩
  · intro va hva hneg
    simp only [processWSMessage, hm, hd]
    rw [if_neg (by decide), if_neg (by decide), if_pos trivial]
    simp only [_handleEncoderMessage, hdata, hi, hva, hneg]
    rw [if_neg (fun h => h.2.1 rfl)]
  · intro vb hvb hneg
    simp only [processWSMessage, hm, hd]
    rw [if_neg (by decide), if_neg (by decide), if_pos trivial]
    simp only [_handleEncoderMessage, hdata, hi, hvb, hneg]
    rw [if_neg (fun h => h.2.2 rfl)]
  · intro dev a b hmem
    simp only [_handleEncoderMessage, hdata, hi] at hmem
    revert hmem
    split
    case isTrue hcond =>
      intro hmem
      simp only [List.mem_singleton, DriverCall.configureEncoder.injEq] at hmem
      obtain ⟨_, ha, hb⟩ := hmem
      subst ha
      subst hb
      exact ⟨hcond.2.1, hcond.2.2⟩
    case isFalse =>
      intro hmem
      exact absurd hmem (List.not_mem_nil _)

/-- C10 witness: init true with `<channel_a` explicitly -1 (and
`<channel_b` = 3) yields no driver call. -/
theorem C10_encoder_sentinel_witness :
    (([("<init", JVal.vBool true), ("<channel_a", JVal.vInt (-1)),
        ("<channel_b", JVal.vInt 3)] :
        List (String × JVal)).lookup "<channel_a" = some (JVal.vInt (-1)))
    ∧ processWSMessage 0
        ⟨some "Encoder", 1, some [("<init", JVal.vBool true),
          ("<channel_a", JVal.vInt (-1)), ("<channel_b", JVal.vInt 3)]⟩
        ⟨0⟩ = (⟨0⟩, []) :=
  ⟨by decide,
    (C10_encoder_sentinel 0 ⟨0⟩
      ⟨some "Encoder", 1, some [("<init", JVal.vBool true),
        ("<channel_a", JVal.vInt (-1)), ("<channel_b", JVal.vInt 3)]⟩
      [("<init", JVal.vBool true), ("<channel_a", JVal.vInt (-1)),
        ("<channel_b", JVal.vInt 3)] (JVal.vBool true)
      rfl rfl (by decide) (by decide)).1
      (JVal.vInt (-1)) (by decide) (by decide)⟩

/-- C7 counterexample: an Encoder message with init true and BOTH
`<channel_a` and `<channel_b` present — channel_a carrying the value
-1 — performs no configuration (`_handleEncoderMessage` emits no call),
contradicting the claim that presence of both channel fields suffices
for the device to be configured with exactly those two channels. -/
theorem C7_counterexample :
    let ed : List (String × JVal) :=
      [("<init", JVal.vBool true), ("<channel_a", JVal.vInt (-1)),
        ("<channel_b", JVal.vInt 3)]
    ed.lookup "<channel_a" = some (JVal.vInt (-1))
    ∧ ed.lookup "<channel_b" = some (JVal.vInt 3)
    ∧ ed.lookup "<init" = some (JVal.vBool true)
    ∧ _handleEncoderMessage ⟨some "Encoder", 1, some ed⟩ = []
    ∧ (dispatchMessage 0 ⟨some "Encoder", 1, some ed⟩
        ⟨⟨0⟩, ⟨false, fun _ => 0⟩, [], [], 0⟩).registry = [] := by
  refine ⟨by decide, by decide, by decide, by decide, by decide⟩

/-- C7 (amended): dispatching an Encoder message with init true and both
`<channel_a` and `<channel_b` present with values different from the
missing-channel sentinel -1 emits exactly one `configureEncoder` call
with those two channels; dispatching it twice yields the same state as
dispatching it once, and from a registry with no entry for the device it
yields exactly one configured entry. With init true but either channel
field missing, no configuration happens at all. (The claim as frozen
omits the "values different from -1" proviso; `C7_counterexample` shows
it is required.) -/
theorem C7_encoder_config_atomic (now : Nat) (m : JsonDoc)
    (d : List (String × JVal)) (i : JVal)
    (hm : m.type? = some "Encoder") (hd : m.data? = some d)
    (hi : d.lookup "<init" = some i) (hit : i.asBool = true) :
    (∀ va vb, d.lookup "<channel_a" = some va → d.lookup "<channel_b" = some vb →
      va.asInt ≠ -1 → vb.asInt ≠ -1 →
      (∀ w, processWSMessage now m w =
        (w, [DriverCall.configureEncoder m.device va.asInt vb.asInt]))
      ∧ (∀ s, dispatchMessage now m (dispatchMessage now m s) =
          dispatchMessage now m s)
      ∧ (∀ s : SysState, s.registry.any (fun e => e.1 = m.device) = false →
        (dispatchMessage now m s).registry.filter (fun e => e.1 = m.device) =
          [(m.device, va.asInt, vb.asInt)]))
    ∧ (d.lookup "<channel_a" = none → ∀ w, processWSMessage now m w = (w, []))
    ∧ (d.lookup "<channel_b" = none → ∀ w, processWSMessage now m w = (w, [])) := by
  have hdata : JsonDoc.data m = d := by rw [JsonDoc.data, hd]; rfl
  refine ⟨?_, ?_, ?_⟩
  · intro va vb hva hvb hna hnb
    have hcall : _handleEncoderMessage m =
        [DriverCall.configureEncoder m.device va.asInt vb.asInt] := by
      simp only [_handleEncoderMessage, hdata, hi, hva, hvb]
      rw [if_pos ⟨hit, hna, hnb⟩]
    have hdisp : ∀ s : SysState, dispatchMessage now m s =
        { s with registry :=
          configureEncoderReg m.device va.asInt vb.asInt s.registry } := by
      intro s
      rw [dispatch_eq_encoder now m s d hm hd, hcall]
      rw [List.foldl_cons, List.foldl_nil]
      rfl
    refine ⟨?_, ?_, ?_⟩
    · intro w
      simp only [processWSMessage, hm, hd]
      rw [if_neg (by decide), if_neg (by decide), if_pos trivial, hcall]
    · intro s
      rw [hdisp s, hdisp]
      simp only [configureEncoderReg_idem]
    · intro s hfresh
      rw [hdisp s]
      exact configureEncoderReg_filter_fresh m.device va.asInt vb.asInt
        s.registry hfresh
  · intro hva w
    simp only [processWSMessage, hm, hd]
    rw [if_neg (by decide), if_neg (by decide), if_pos trivial]
    simp only [_handleEncoderMessage, hdata, hi, hva]
    rw [if_neg (fun h => h.2.1 rfl)]
  · intro hvb w
    simp only [processWSMessage, hm, hd]
    rw [if_neg (by decide), if_neg (by decide), if_pos trivial]
    simp only [_handleEncoderMessage, hdata, hi, hvb]
    rw [if_neg (fun h => h.2.2 rfl)]

/-- C7 witness: configuring device 1 with channels (2,3) emits exactly
one call, dispatching twice equals dispatching once on a concrete state,
and an incomplete init (channel_b missing) emits no call. -/
theorem C7_encoder_config_atomic_witness :
    processWSMessage 0
      ⟨some "Encoder", 1, some [("<init", JVal.vBool true),
        ("<channel_a", JVal.vInt 2), ("<channel_b", JVal.vInt 3)]⟩ ⟨0⟩ =
      (⟨0⟩, [DriverCall.configureEncoder 1 2 3])
    ∧ (∀ s, dispatchMessage 0
        ⟨some "Encoder", 1, some [("<init", JVal.vBool true),
          ("<channel_a", JVal.vInt 2), ("<channel_b", JVal.vInt 3)]⟩
        (dispatchMessage 0
          ⟨some "Encoder", 1, some [("<init", JVal.vBool true),
            ("<channel_a", JVal.vInt 2), ("<channel_b", JVal.vInt 3)]⟩ s) =
        dispatchMessage 0
          ⟨some "Encoder", 1, some [("<init", JVal.vBool true),
            ("<channel_a", JVal.vInt 2), ("<channel_b", JVal.vInt 3)]⟩ s)
    ∧ processWSMessage 0
        ⟨some "Encoder", 1, some [("<init", JVal.vBool true),
          ("<channel_a", JVal.vInt 2)]⟩ ⟨0⟩ = (⟨0⟩, []) :=
  ⟨((C7_encoder_config_atomic 0
      ⟨some "Encoder", 1, some [("<init", JVal.vBool true),
        ("<channel_a", JVal.vInt 2), ("<channel_b", JVal.vInt 3)]⟩
      [("<init", JVal.vBool true), ("<channel_a", JVal.vInt 2),
        ("<channel_b", JVal.vInt 3)] (JVal.vBool true)
      rfl rfl (by decide) (by decide)).1 (JVal.vInt 2) (JVal.vInt 3)
      (by decide) (by decide) (by decide) (by decide)).1 ⟨0⟩,
    ((C7_encoder_config_atomic 0
      ⟨some "Encoder", 1, some [("<init", JVal.vBool true),
        ("<channel_a", JVal.vInt 2), ("<channel_b", JVal.vInt 3)]⟩
      [("<init", JVal.vBool true), ("<channel_a", JVal.vInt 2),
        ("<channel_b", JVal.vInt 3)] (JVal.vBool true)
      rfl rfl (by decide) (by decide)).1 (JVal.vInt 2) (JVal.vInt 3)
      (by decide) (by decide) (by decide) (by decide)).2.1,
    (C7_encoder_config_atomic 0
      ⟨some "Encoder", 1, some [("<init", JVal.vBool true),
        ("<channel_a", JVal.vInt 2)]⟩
      [("<init", JVal.vBool true), ("<channel_a", JVal.vInt 2)] (JVal.vBool true)
      rfl rfl (by decide) (by decide)).2.2 (by decide) ⟨0⟩⟩

/-- C3: when the client count observed by the loop drops from positive
to zero, that same tick forces the robot disabled, clears the Outbound
Queue, and broadcasts nothing — even with the heartbeat still
satisfied. -/
theorem C3_disconnect_disables (now : Nat) (inbound : List JsonDoc)
    (sensors : SensorReadings) (s : SysState)
    (hprev : 0 < s.lastCheckedNumClients)
    (hhb : s.watchdog.satisfied now = true) :
    (tick now inbound 0 sensors s).1.robot.enabled = false
    ∧ (tick now inbound 0 sensors s).1.queue = []
    ∧ (tick now inbound 0 sensors s).2 = [] := by
  have e1 : (evalHeartbeat now (drainInbound now inbound s)).lastCheckedNumClients
      = s.lastCheckedNumClients := by
    rw [evalHeartbeat_lastChecked, drain_lastChecked]
  have hd : disconnectCheck 0 (evalHeartbeat now (drainInbound now inbound s)) =
      ⟨(evalHeartbeat now (drainInbound now inbound s)).watchdog,
        (evalHeartbeat now (drainInbound now inbound s)).robot.setEnabled false,
        (evalHeartbeat now (drainInbound now inbound s)).registry, [], 0⟩ :=
    disconnectCheck_triggered 0 _ (by rw [e1]; exact hprev) rfl
  rw [tick_nonpos now inbound 0 sensors s (by decide), hd]
  exact ⟨setEnabled_enabled false _, rfl, rfl⟩

/-- C3 witness: one connected client previously, zero now, with a
freshly fed heartbeat and a pending queued message. -/
theorem C3_disconnect_disables_witness :
    (0 : Int) < (⟨⟨1990⟩, ⟨true, fun _ => 0⟩, [], [OutMsg.dioMsg 0 true], 1⟩ :
      SysState).lastCheckedNumClients
    ∧ Watchdog.satisfied 2000 ⟨1990⟩ = true
    ∧ ((tick 2000 [] 0 ⟨false, [], false, false, false, 0, 0⟩
        ⟨⟨1990⟩, ⟨true, fun _ => 0⟩, [], [OutMsg.dioMsg 0 true], 1⟩).1.robot.enabled = false
      ∧ (tick 2000 [] 0 ⟨false, [], false, false, false, 0, 0⟩
        ⟨⟨1990⟩, ⟨true, fun _ => 0⟩, [], [OutMsg.dioMsg 0 true], 1⟩).1.queue = []
      ∧ (tick 2000 [] 0 ⟨false, [], false, false, false, 0, 0⟩
        ⟨⟨1990⟩, ⟨true, fun _ => 0⟩, [], [OutMsg.dioMsg 0 true], 1⟩).2 = []) :=
  ⟨by decide, by decide,
    C3_disconnect_disables 2000 [] ⟨false, [], false, false, false, 0, 0⟩
      ⟨⟨1990⟩, ⟨true, fun _ => 0⟩, [], [OutMsg.dioMsg 0 true], 1⟩
      (by decide) (by decide)⟩

/-- C1: if the robot is ENABLED and no DriverStation message arrives
this tick while the heartbeat has gone unfed for longer than the
configured timeout, the tick's heartbeat evaluation transitions the
state to DISABLED, and afterwards dispatching any PWM (actuator) message
leaves the whole state unchanged — the command is suppressed. -/
theorem C1_heartbeat_expiry (now : Nat) (inbound : List JsonDoc) (clients : Int)
    (sensors : SensorReadings) (s : SysState)
    (hen : s.robot.enabled = true)
    (hnods : ∀ m ∈ inbound, m.type? ≠ some "DriverStation")
    (hto : dsWatchdogTimeoutMs < now - s.watchdog.lastFed) :
    (tick now inbound clients sensors s).1.robot.enabled = false
    ∧ (∀ m now2, m.type? = some "PWM" →
        dispatchMessage now2 m (tick now inbound clients sensors s).1 =
          (tick now inbound clients sensors s).1) := by
  have hw : (drainInbound now inbound s).watchdog = s.watchdog :=
    drain_watchdog_nonDS now inbound s hnods
  have hsat : (drainInbound now inbound s).watchdog.satisfied now = false := by
    rw [hw]
    simp only [Watchdog.satisfied, decide_eq_false_iff_not, not_le]
    exact hto
  have hexp : (evalHeartbeat now (drainInbound now inbound s)).robot.enabled = false :=
    evalHeartbeat_expired now _ hsat
  have hfin : (tick now inbound clients sensors s).1.robot.enabled = false := by
    by_cases hc2 : clients > 0
    · rw [tick_pos now inbound clients sensors s hc2]
      show (sampleAndEnqueue sensors _).robot.enabled = false
      rw [sample_robot]
      exact disconnectCheck_enabled_false _ _ hexp
    · rw [tick_nonpos now inbound clients sensors s hc2]
      exact disconnectCheck_enabled_false _ _ hexp
  exact ⟨hfin, fun m now2 hpwm => dispatch_pwm_disabled now2 m _ hpwm hfin⟩

/-- C1 witness: robot enabled, heartbeat last fed at 0, evaluated at
2000 ms with a client still connected and no inbound traffic. -/
theorem C1_heartbeat_expiry_witness :
    (⟨⟨0⟩, ⟨true, fun _ => 0⟩, [], [], 1⟩ : SysState).robot.enabled = true
    ∧ dsWatchdogTimeoutMs < 2000 - (⟨⟨0⟩, ⟨true, fun _ => 0⟩, [], [], 1⟩ :
        SysState).watchdog.lastFed
    ∧ ((tick 2000 [] 1 ⟨false, [], false, false, false, 0, 0⟩
        ⟨⟨0⟩, ⟨true, fun _ => 0⟩, [], [], 1⟩).1.robot.enabled = false
      ∧ (∀ m now2, m.type? = some "PWM" →
        dispatchMessage now2 m (tick 2000 [] 1 ⟨false, [], false, false, false, 0, 0⟩
          ⟨⟨0⟩, ⟨true, fun _ => 0⟩, [], [], 1⟩).1 =
        (tick 2000 [] 1 ⟨false, [], false, false, false, 0, 0⟩
          ⟨⟨0⟩, ⟨true, fun _ => 0⟩, [], [], 1⟩).1)) :=
  ⟨rfl, by decide,
    C1_heartbeat_expiry 2000 [] 1 ⟨false, [], false, false, false, 0, 0⟩
      ⟨⟨0⟩, ⟨true, fun _ => 0⟩, [], [], 1⟩ rfl (by simp) (by decide)⟩

/-- C4: the robot can go from DISABLED to ENABLED over a tick only
because some drained inbound message was a DriverStation message
requesting enabled=true; and since `_handleDSMessage` feeds the watchdog
before forwarding the request, the heartbeat is satisfied at that moment
(the tick ends with the watchdog fed at the current time). No other
event enables the robot: the heartbeat evaluation and the disconnect
check only ever disable it, and sampling does not touch it. -/
theorem C4_enable_only_via_ds (now : Nat) (inbound : List JsonDoc) (clients : Int)
    (sensors : SensorReadings) (s : SysState)
    (h0 : s.robot.enabled = false)
    (h1 : (tick now inbound clients sensors s).1.robot.enabled = true) :
    (∃ m ∈ inbound, m.type? = some "DriverStation" ∧
      ∃ d, m.data? = some d ∧ ∃ v, d.lookup ">enabled" = some v ∧ v.asBool = true)
    ∧ Watchdog.satisfied now (tick now inbound clients sensors s).1.watchdog = true := by
  by_cases hc2 : clients > 0
  · rw [tick_pos now inbound clients sensors s hc2] at h1 ⊢
    have h1' : (disconnectCheck clients
        (evalHeartbeat now (drainInbound now inbound s))).robot.enabled = true := by
      have hs : (sampleAndEnqueue sensors
          { disconnectCheck clients (evalHeartbeat now (drainInbound now inbound s))
            with queue := [] }).robot.enabled = true := h1
      rw [sample_robot] at hs
      exact hs
    have hdrain : (drainInbound now inbound s).robot.enabled = true :=
      evalHeartbeat_enabled_mono now _ (disconnectCheck_enabled_mono _ _ h1')
    obtain ⟨hex, hfed⟩ := drain_flip now inbound s h0 hdrain
    refine ⟨hex, ?_⟩
    have hwd : (sampleAndEnqueue sensors
        { disconnectCheck clients (evalHeartbeat now (drainInbound now inbound s))
          with queue := [] }).watchdog = (drainInbound now inbound s).watchdog := by
      rw [sample_watchdog]
      show (disconnectCheck clients _).watchdog = _
      rw [disconnectCheck_watchdog, evalHeartbeat_watchdog]
    show Watchdog.satisfied now (sampleAndEnqueue sensors _).watchdog = true
    rw [hwd]
    simp [Watchdog.satisfied, hfed]
  · rw [tick_nonpos now inbound clients sensors s hc2] at h1 ⊢
    have h1' : (disconnectCheck clients
        (evalHeartbeat now (drainInbound now inbound s))).robot.enabled = true := h1
    have hdrain : (drainInbound now inbound s).robot.enabled = true :=
      evalHeartbeat_enabled_mono now _ (disconnectCheck_enabled_mono _ _ h1')
    obtain ⟨hex, hfed⟩ := drain_flip now inbound s h0 hdrain
    refine ⟨hex, ?_⟩
    show Watchdog.satisfied now (disconnectCheck clients _).watchdog = true
    rw [disconnectCheck_watchdog, evalHeartbeat_watchdog]
    simp [Watchdog.satisfied, hfed]

/-- C4 witness: a disabled robot becomes enabled through a tick exactly
when the drained traffic contains a DriverStation enabled=true message,
and the heartbeat ends the tick satisfied. -/
theorem C4_enable_only_via_ds_witness :
    (⟨⟨0⟩, ⟨false, fun _ => 0⟩, [], [], 1⟩ : SysState).robot.enabled = false
    ∧ (tick 5 [⟨some "DriverStation", 0, some [(">enabled", JVal.vBool true)]⟩] 1
        ⟨false, [], false, false, false, 0, 0⟩
        ⟨⟨0⟩, ⟨false, fun _ => 0⟩, [], [], 1⟩).1.robot.enabled = true
    ∧ ((∃ m ∈ [(⟨some "DriverStation", 0, some [(">enabled", JVal.vBool true)]⟩ :
          JsonDoc)], m.type? = some "DriverStation" ∧
        ∃ d, m.data? = some d ∧ ∃ v, d.lookup ">enabled" = some v ∧ v.asBool = true)
      ∧ Watchdog.satisfied 5
          (tick 5 [⟨some "DriverStation", 0, some [(">enabled", JVal.vBool true)]⟩] 1
            ⟨false, [], false, false, false, 0, 0⟩
            ⟨⟨0⟩, ⟨false, fun _ => 0⟩, [], [], 1⟩).1.watchdog = true) :=
  ⟨rfl, by decide,
    C4_enable_only_via_ds 5
      [⟨some "DriverStation", 0, some [(">enabled", JVal.vBool true)]⟩] 1
      ⟨false, [], false, false, false, 0, 0⟩
      ⟨⟨0⟩, ⟨false, fun _ => 0⟩, [], [], 1⟩ rfl (by decide)⟩

/-- C2: for every transition of the safety state into DISABLED —
whether requested by a DriverStation enabled=false message, caused by
heartbeat expiry, or forced by client disconnection — the same side
effects occur: all actuator outputs are forced to neutral, the Outbound
Queue is cleared, and further actuation is suppressed until re-enabled
(`setPwmValue` is a no-op while the flag is false). The first conjunct
states the shared driver-level transition (spec §4.2, modelled in
`SysState.setEnabled` for the absent `robot.cpp`); the other three prove
it through each trigger. -/
theorem C2_disable_side_effects :
    (∀ s : SysState, s.robot.enabled = true →
      (s.setEnabled false).robot.enabled = false
      ∧ (s.setEnabled false).robot.pwm = (fun _ => 0)
      ∧ (s.setEnabled false).queue = []
      ∧ (∀ channel value,
          (s.setEnabled false).robot.setPwmValue channel value =
            (s.setEnabled false).robot))
    ∧ (∀ now m s (d : List (String × JVal)) v,
        m.type? = some "DriverStation" → m.data? = some d →
        d.lookup ">enabled" = some v → v.asBool = false →
        s.robot.enabled = true →
        (dispatchMessage now m s).robot.enabled = false
        ∧ (dispatchMessage now m s).robot.pwm = (fun _ => 0)
        ∧ (dispatchMessage now m s).queue = [])
    ∧ (∀ now s, s.robot.enabled = true → s.watchdog.satisfied now = false →
        (evalHeartbeat now s).robot.enabled = false
        ∧ (evalHeartbeat now s).robot.pwm = (fun _ => 0)
        ∧ (evalHeartbeat now s).queue = [])
    ∧ (∀ now sensors s, s.robot.enabled = true →
        s.watchdog.satisfied now = true → 0 < s.lastCheckedNumClients →
        (tick now [] 0 sensors s).1.robot.enabled = false
        ∧ (tick now [] 0 sensors s).1.robot.pwm = (fun _ => 0)
        ∧ (tick now [] 0 sensors s).1.queue = []) := by
  refine ⟨?_, ?_, ?_, ?_⟩
  · intro s h
    rw [sysSetEnabled_transition s h]
    refine ⟨setEnabled_enabled false _, ?_, rfl, ?_⟩
    · show (s.robot.setEnabled false).pwm = (fun _ => 0)
      rw [setEnabled_transition_pwm s.robot h]
    · intro channel value
      exact setPwmValue_disabled channel value _ (setEnabled_enabled false s.robot)
  · intro now m s d v hm hd hv hvf h
    rw [dispatch_eq_ds_some now m s d v hm hd hv, hvf]
    rw [sysSetEnabled_transition { s with watchdog := ⟨now⟩ } h]
    refine ⟨setEnabled_enabled false _, ?_, rfl⟩
    show (s.robot.setEnabled false).pwm = (fun _ => 0)
    rw [setEnabled_transition_pwm s.robot h]
  · intro now s h hsat
    have he : evalHeartbeat now s = s.setEnabled false := by
      unfold evalHeartbeat
      rw [if_neg (by rw [hsat]; simp)]
    rw [he, sysSetEnabled_transition s h]
    refine ⟨setEnabled_enabled false _, ?_, rfl⟩
    show (s.robot.setEnabled false).pwm = (fun _ => 0)
    rw [setEnabled_transition_pwm s.robot h]
  · intro now sensors s h hsat hprev
    have hdrain : drainInbound now [] s = s := rfl
    have heval : evalHeartbeat now s = s := by
      unfold evalHeartbeat
      rw [if_pos hsat]
    rw [tick_nonpos now [] 0 sensors s (by decide), hdrain, heval,
      disconnectCheck_triggered 0 s hprev rfl]
    refine ⟨setEnabled_enabled false _, ?_, rfl⟩
    show (s.robot.setEnabled false).pwm = (fun _ => 0)
    rw [setEnabled_transition_pwm s.robot h]

/-- C2 witness: all three triggers applied to concrete enabled robots
with a nonzero PWM output and a pending queued message — each time the
robot ends disabled with a cleared queue and all-zero outputs. -/
theorem C2_disable_side_effects_witness :
    ((⟨some "DriverStation", 0, some [(">enabled", JVal.vBool false)]⟩ :
        JsonDoc).type? = some "DriverStation"
      ∧ (JVal.vBool false).asBool = false
      ∧ ((dispatchMessage 2000
            ⟨some "DriverStation", 0, some [(">enabled", JVal.vBool false)]⟩
            ⟨⟨1990⟩, ⟨true, fun c => if c = 0 then 1 else 0⟩, [],
              [OutMsg.dioMsg 0 true], 1⟩).robot.enabled = false
        ∧ (dispatchMessage 2000
            ⟨some "DriverStation", 0, some [(">enabled", JVal.vBool false)]⟩
            ⟨⟨1990⟩, ⟨true, fun c => if c = 0 then 1 else 0⟩, [],
              [OutMsg.dioMsg 0 true], 1⟩).robot.pwm = (fun _ => 0)
        ∧ (dispatchMessage 2000
            ⟨some "DriverStation", 0, some [(">enabled", JVal.vBool false)]⟩
            ⟨⟨1990⟩, ⟨true, fun c => if c = 0 then 1 else 0⟩, [],
              [OutMsg.dioMsg 0 true], 1⟩).queue = []))
    ∧ (Watchdog.satisfied 2000 ⟨0⟩ = false
      ∧ ((evalHeartbeat 2000
            ⟨⟨0⟩, ⟨true, fun c => if c = 0 then 1 else 0⟩, [],
              [OutMsg.dioMsg 0 true], 1⟩).robot.enabled = false
        ∧ (evalHeartbeat 2000
            ⟨⟨0⟩, ⟨true, fun c => if c = 0 then 1 else 0⟩, [],
              [OutMsg.dioMsg 0 true], 1⟩).robot.pwm = (fun _ => 0)
        ∧ (evalHeartbeat 2000
            ⟨⟨0⟩, ⟨true, fun c => if c = 0 then 1 else 0⟩, [],
              [OutMsg.dioMsg 0 true], 1⟩).queue = []))
    ∧ (Watchdog.satisfied 2000 ⟨1990⟩ = true
      ∧ ((tick 2000 [] 0 ⟨false, [], false, false, false, 0, 0⟩
            ⟨⟨1990⟩, ⟨true, fun c => if c = 0 then 1 else 0⟩, [],
              [OutMsg.dioMsg 0 true], 1⟩).1.robot.enabled = false
        ∧ (tick 2000 [] 0 ⟨false, [], false, false, false, 0, 0⟩
            ⟨⟨1990⟩, ⟨true, fun c => if c = 0 then 1 else 0⟩, [],
              [OutMsg.dioMsg 0 true], 1⟩).1.robot.pwm = (fun _ => 0)
        ∧ (tick 2000 [] 0 ⟨false, [], false, false, false, 0, 0⟩
            ⟨⟨1990⟩, ⟨true, fun c => if c = 0 then 1 else 0⟩, [],
              [OutMsg.dioMsg 0 true], 1⟩).1.queue = [])) :=
  ⟨⟨rfl, rfl,
    C2_disable_side_effects.2.1 2000
      ⟨some "DriverStation", 0, some [(">enabled", JVal.vBool false)]⟩
      ⟨⟨1990⟩, ⟨true, fun c => if c = 0 then 1 else 0⟩, [],
        [OutMsg.dioMsg 0 true], 1⟩
      [(">enabled", JVal.vBool false)] (JVal.vBool false)
      rfl rfl (by decide) rfl rfl⟩,
    ⟨by decide,
      C2_disable_side_effects.2.2.1 2000
        ⟨⟨0⟩, ⟨true, fun c => if c = 0 then 1 else 0⟩, [],
          [OutMsg.dioMsg 0 true], 1⟩ rfl (by decide)⟩,
    ⟨by decide,
      C2_disable_side_effects.2.2.2 2000 ⟨false, [], false, false, false, 0, 0⟩
        ⟨⟨1990⟩, ⟨true, fun c => if c = 0 then 1 else 0⟩, [],
          [OutMsg.dioMsg 0 true], 1⟩ rfl (by decide) (by decide)⟩⟩

/-- C9 counterexample: with a client connected and an empty queue, a tick
whose sampling produces a DIO message broadcasts nothing — the sampled
message is still queued after the tick, so the flush happened BEFORE
that tick's sampling, not after it as claimed; and a disabled robot
still samples (the claim says sampling is skipped entirely while
disabled). -/
theorem C9_counterexample :
    let sens : SensorReadings := ⟨false, [], true, true, false, 0, 0⟩
    (tick 2000 [] 1 sens ⟨⟨1990⟩, ⟨true, fun _ => 0⟩, [], [], 1⟩).2 = []
    ∧ (tick 2000 [] 1 sens ⟨⟨1990⟩, ⟨true, fun _ => 0⟩, [], [], 1⟩).1.queue =
        [OutMsg.dioMsg 0 true]
    ∧ (⟨⟨1990⟩, ⟨false, fun _ => 0⟩, [], [], 1⟩ : SysState).robot.enabled = false
    ∧ (tick 2000 [] 1 sens ⟨⟨1990⟩, ⟨false, fun _ => 0⟩, [], [], 1⟩).1.queue =
        [OutMsg.dioMsg 0 true] := by
  exact ⟨by decide, by decide, rfl, by decide⟩

/-- C9 (amended): each tick drains inbound messages, evaluates the
heartbeat/safety state, FLUSHES the Outbound Queue, and only then
samples hardware into the emptied queue (so messages sampled in a tick
are broadcast on a later tick); sampling and flushing are skipped only
while no client is connected, not while the robot is merely disabled.
Formally: the broadcast of a tick is independent of that tick's sensor
readings; a zero-client tick broadcasts nothing and its final state is
sensor-independent; and with a client connected the post-tick queue is
exactly the sampled messages, with no dependence on the enabled flag. -/
theorem C9_phase_order (now : Nat) (inbound : List JsonDoc) (clients : Int)
    (sensors : SensorReadings) (s : SysState) :
    (∀ sensors2, (tick now inbound clients sensors s).2 =
      (tick now inbound clients sensors2 s).2)
    ∧ ((tick now inbound 0 sensors s).2 = []
      ∧ ∀ sensors2, (tick now inbound 0 sensors s).1 =
          (tick now inbound 0 sensors2 s).1)
    ∧ (clients > 0 →
      (tick now inbound clients sensors s).1.queue = sampledMsgs sensors) := by
  refine ⟨?_, ⟨?_, ?_⟩, ?_⟩
  · intro sensors2
    by_cases hc : clients > 0
    · rw [tick_pos now inbound clients sensors s hc,
        tick_pos now inbound clients sensors2 s hc]
    · rw [tick_nonpos now inbound clients sensors s hc,
        tick_nonpos now inbound clients sensors2 s hc]
  · rw [tick_nonpos now inbound 0 sensors s (by decide)]
  · intro sensors2
    rw [tick_nonpos now inbound 0 sensors s (by decide),
      tick_nonpos now inbound 0 sensors2 s (by decide)]
  · intro hc
    rw [tick_pos now inbound clients sensors s hc]
    show (sampleAndEnqueue sensors _).queue = sampledMsgs sensors
    rw [sample_queue]
    rfl

/-- C9 (amended) witness: on a concrete connected tick the broadcast is
the same whatever the sensors read, a zero-client tick broadcasts
nothing, and a connected tick leaves exactly the sampled DIO message
queued. -/
theorem C9_phase_order_witness :
    ((tick 2000 [] 1 ⟨false, [], true, true, false, 0, 0⟩
        ⟨⟨1990⟩, ⟨true, fun _ => 0⟩, [], [], 1⟩).2 =
      (tick 2000 [] 1 ⟨false, [], false, false, false, 0, 0⟩
        ⟨⟨1990⟩, ⟨true, fun _ => 0⟩, [], [], 1⟩).2)
    ∧ (tick 2000 [] 0 ⟨false, [], true, true, false, 0, 0⟩
        ⟨⟨1990⟩, ⟨true, fun _ => 0⟩, [], [], 1⟩).2 = []
    ∧ (tick 2000 [] 1 ⟨false, [], true, true, false, 0, 0⟩
        ⟨⟨1990⟩, ⟨true, fun _ => 0⟩, [], [], 1⟩).1.queue =
      sampledMsgs ⟨false, [], true, true, false, 0, 0⟩ :=
  ⟨(C9_phase_order 2000 [] 1 ⟨false, [], true, true, false, 0, 0⟩
      ⟨⟨1990⟩, ⟨true, fun _ => 0⟩, [], [], 1⟩).1
      ⟨false, [], false, false, false, 0, 0⟩,
    (C9_phase_order 2000 [] 1 ⟨false, [], true, true, false, 0, 0⟩
      ⟨⟨1990⟩, ⟨true, fun _ => 0⟩, [], [], 1⟩).2.1.1,
    (C9_phase_order 2000 [] 1 ⟨false, [], true, true, false, 0, 0⟩
      ⟨⟨1990⟩, ⟨true, fun _ => 0⟩, [], [], 1⟩).2.2 (by decide)⟩

end XRP
